import Mathlib

/-!
Verification of the Camunda external-task workers of this repository.

The development shallowly embeds the two worker modules the claims are
about — `workers/worker_ibm_rpa_autorizacao.py` and
`workers/worker_oracle_autorizacao.py` — as executable Lean definitions:

* loosely-typed Python values become the inductive `PyVal`;
* the IBM RPA completion-polling loop `IBMRPAClient.aguardar_conclusao`
  becomes the fuel-indexed `aguardarLoop` / `aguardarConclusao`, driven by
  an abstract stream of remote responses and a discrete clock in which
  each `time.sleep(poll_interval)` advances elapsed time by the interval;
* the result-extraction code of `handle_executar_rpa` becomes
  `extractResult` / `extractVars`;
* the Oracle handler `handle_atualizar_autorizacao`, its repository and
  the status→estágio table become state-passing functions over an
  explicit connection state.

Python exceptions are modelled with `Except`; a handler that lets an
exception escape returns `Except.error`.
-/

namespace CamundaWorkers

/-- Python values as they occur in task variables and RPA payloads.
`vfloat t` models a floating-point number that carries an integral value
`t` (the identifier wire format, e.g. `95687.0`); the code under
verification applies `int()` (truncation) to such floats before use. -/
inductive PyVal where
  | pynone
  | vstr (s : String)
  | vint (n : Int)
  | vfloat (t : Int)
  | vbool (b : Bool)
  | vdict (d : List (String × PyVal))
  | vlist (l : List PyVal)

/-- Python truthiness (`bool(v)`): `None`, `""`, `0`, `0.0`, `False`,
`{}` and `[]` are falsy, everything else truthy. -/
def PyVal.truthy : PyVal → Bool
  | .pynone => false
  | .vstr s => !(s == "")
  | .vint n => !(n == 0)
  | .vfloat t => !(t == 0)
  | .vbool b => b
  | .vdict d => !d.isEmpty
  | .vlist l => !l.isEmpty

/-- Python `str()` on the scalar values the embedded code renders.  The
code under verification never applies `str` to a container, so containers
get a fixed placeholder rendering. -/
def PyVal.pyStr : PyVal → String
  | .pynone => "None"
  | .vstr s => s
  | .vint n => toString n
  | .vfloat t => toString t ++ ".0"
  | .vbool b => if b then "True" else "False"
  | .vdict _ => "<dict>"
  | .vlist _ => "<list>"

/-- Python exceptions relevant to the embedded code. -/
inductive PyExc where
  | valueError (msg : String)
  | typeError (msg : String)
  | runtimeError (msg : String)

/-- Python `s.upper()` (executable character-list model; like Python it
uppercases the ASCII letters the statuses consist of). -/
def pyUpper (s : String) : String :=
  ⟨s.data.map Char.toUpper⟩

/-- Python `s.strip()` (executable character-list model: drop leading
and trailing whitespace). -/
def pyStrip (s : String) : String :=
  ⟨((s.data.dropWhile Char.isWhitespace).reverse.dropWhile Char.isWhitespace).reverse⟩

/-- Decimal value of a digit list. -/
def digitsVal (ds : List Char) : Nat :=
  ds.foldl (fun a c => 10 * a + (c.toNat - '0'.toNat)) 0

/-- Python `int(s)` on a string: optional surrounding whitespace, an
optional sign, then at least one decimal digit; anything else is a
`ValueError` (executable character-list model). -/
def pyStrToInt? (s : String) : Option Int :=
  match (pyStrip s).data with
  | [] => none
  | '-' :: ds => if ds ≠ [] ∧ ds.all Char.isDigit then some (-(digitsVal ds : Int)) else none
  | '+' :: ds => if ds ≠ [] ∧ ds.all Char.isDigit then some (digitsVal ds : Int) else none
  | ds => if ds.all Char.isDigit then some (digitsVal ds : Int) else none

/-- Python `int(v)`.  Fails with `ValueError` on a non-numeric string and
with `TypeError` on `None` or a container; truncates a float toward zero
(already performed in the `vfloat` representation). -/
def PyVal.pyInt : PyVal → Except PyExc Int
  | .pynone => .error (.typeError "int() argument must not be None")
  | .vstr s =>
    match pyStrToInt? s with
    | some n => .ok n
    | none => .error (.valueError ("invalid literal for int() with base 10: " ++ s))
  | .vint n => .ok n
  | .vfloat t => .ok t
  | .vbool b => .ok (if b then 1 else 0)
  | .vdict _ => .error (.typeError "int() argument must not be a dict")
  | .vlist _ => .error (.typeError "int() argument must not be a list")

/-- Key lookup in a Python dict represented as an association list:
`some v` when the key is present, `none` when absent. -/
def pyGet (d : List (String × PyVal)) (k : String) : Option PyVal :=
  (d.find? (fun p => p.1 == k)).map (fun p => p.2)

/-- Python `d.get(k, default)`. -/
def pyGetD (d : List (String × PyVal)) (k : String) (dflt : PyVal) : PyVal :=
  (pyGet d k).getD dflt

/-- Python `d.get(k)` (default `None`). -/
def pyGetN (d : List (String × PyVal)) (k : String) : PyVal :=
  (pyGet d k).getD .pynone

/-- Python `a or b`. -/
def pyOr (a b : PyVal) : PyVal :=
  if a.truthy then a else b

/-- `v.get(k)` on a value the source statically treats as a dict at the
call site (a non-dict receiver would raise inside the handler's
`try`/`except`, which is modelled separately). -/
def PyVal.get : PyVal → String → PyVal
  | .vdict d, k => pyGetN d k
  | _, _ => .pynone

/-- `v.get(k, default)` under the same convention as `PyVal.get`. -/
def PyVal.getD : PyVal → String → PyVal → PyVal
  | .vdict d, k, dflt => pyGetD d k dflt
  | _, _, dflt => dflt

/-- Python `x in (s₁, …, sₙ)` where the `sᵢ` are string literals: true
exactly when `x` is a string equal to one of them. -/
def isIn (v : PyVal) (l : List String) : Bool :=
  match v with
  | .vstr s => l.contains s
  | _ => false

/-- `data.get(k, '')` for a field the remote protocol types as a string
(spec §6: get-status returns `{status: string, …}`). -/
def getStr (d : List (String × PyVal)) (k : String) : String :=
  match pyGetD d k (.vstr "") with
  | .vstr s => s
  | _ => ""

-- =========================================================================
-- Status mappers
-- =========================================================================

/-- `RPAStatus` enum of `worker_ibm_rpa_autorizacao.py`. -/
inductive RPAStatus where
  | SUCESSO
  | ERRO
  | TIMEOUT
  | PENDENTE
deriving DecidableEq

def RPAStatus.value : RPAStatus → String
  | .SUCESSO => "SUCESSO"
  | .ERRO => "ERRO"
  | .TIMEOUT => "TIMEOUT"
  | .PENDENTE => "PENDENTE"

/-- Internal job states produced by mapping a remote status string.  The
type has no timed-out constructor: timeout is decided by elapsed time in
the polling loop, never by status mapping. -/
inductive JobState where
  | succeeded
  | failed
  | running
deriving DecidableEq

/-- Raw statuses `aguardar_conclusao` treats as terminal success. -/
def ibmSuccessStatuses : List String := ["DONE", "COMPLETED"]

/-- Raw statuses `aguardar_conclusao` treats as terminal failure. -/
def ibmFailureStatuses : List String := ["FAILED", "CANCELED", "ERROR"]

/-- The status classification of `aguardar_conclusao` (lines 221–254):
the raw status is uppercased (`data.get('status', '').upper()`) and
tested for membership in the terminal sets; every other status — the
known in-flight ones and unknown ones alike — keeps the loop polling. -/
def ibmClassify (raw : String) : JobState :=
  let status := pyUpper raw
  if ibmSuccessStatuses.contains status then .succeeded
  else if ibmFailureStatuses.contains status then .failed
  else .running

/-- `STATUS_PARA_ESTAGIO` table of `worker_oracle_autorizacao.py`. -/
def STATUS_PARA_ESTAGIO : List (String × Int) :=
  [("Autorizado", 2), ("AUTORIZADO", 2), ("Aprovado", 2), ("APROVADO", 2),
   ("Analise", 6), ("ANALISE", 6), ("Auditoria", 29), ("AUDITORIA", 29),
   ("Negado", 7), ("NEGADO", 7), ("Recusado", 7), ("RECUSADO", 7)]

/-- `obter_estagio_por_status`: falsy input or a stripped status not in
the table defaults to 6 (Análise); otherwise the table value. -/
def obter_estagio_por_status (status_autorizacao : String) : Int :=
  if status_autorizacao == "" then 6
  else (( STATUS_PARA_ESTAGIO.find? (fun p => p.1 == pyStrip status_autorizacao)).map
          (fun p => p.2)).getD 6

-- =========================================================================
-- The completion-polling loop `IBMRPAClient.aguardar_conclusao`
-- =========================================================================

/-- Outcome of one `consultar_status_instancia` attempt: the parsed JSON
body, or a `requests.RequestException`. -/
inductive PollResp where
  | ok (data : List (String × PyVal))
  | netError

/-- The triple returned by `aguardar_conclusao`:
`(status, mensagem, output)`. -/
structure RPATriple where
  status : String
  mensagem : String
  output : Option PyVal

/-- Third component of the success return:
`{"outputs": data.get('outputs', {}) or data.get('output', {}),
  "variables": data.get('variables', [])}`. -/
def sucessoOutput (data : List (String × PyVal)) : PyVal :=
  .vdict [("outputs", pyOr (pyGetD data "outputs" (.vdict [])) (pyGetD data "output" (.vdict []))),
          ("variables", pyGetD data "variables" (.vlist []))]

def sucessoTriple (data : List (String × PyVal)) : RPATriple :=
  ⟨RPAStatus.SUCESSO.value, "Processo concluído com sucesso", some (sucessoOutput data)⟩

/-- `data.get('errorMessage') or data.get('error') or 'Erro desconhecido'`. -/
def erroMsg (data : List (String × PyVal)) : PyVal :=
  pyOr (pyOr (pyGetN data "errorMessage") (pyGetN data "error")) (.vstr "Erro desconhecido")

def erroTriple (data : List (String × PyVal)) : RPATriple :=
  ⟨RPAStatus.ERRO.value, "Processo falhou: " ++ (erroMsg data).pyStr, some (.vdict data)⟩

def timeoutTriple (T : Nat) : RPATriple :=
  ⟨RPAStatus.TIMEOUT.value, "Timeout após " ++ toString T ++ "s", none⟩

/-- The `while True` polling loop of `aguardar_conclusao`, instrumented
with the number of status polls issued so far.  `resp k` is the outcome
of the `k`-th poll (0-based).  Time is discrete: each
`time.sleep(poll_interval_seconds)` advances `elapsed` by `interval`;
the loop checks `tempo_decorrido >= tempo_maximo` before each poll.  A
network error during a poll is logged, slept over and retried exactly
like a non-terminal status.  `fuel` is a modelling artifact bounding the
recursion; `none` means the fuel ran out before the loop returned. -/
def aguardarLoop (resp : Nat → PollResp) (interval T : Nat) :
    Nat → Nat → Nat → Option (RPATriple × Nat)
  | 0, _, _ => none
  | fuel + 1, elapsed, polls =>
    if T ≤ elapsed then some (timeoutTriple T, polls)
    else
      match resp polls with
      | .netError => aguardarLoop resp interval T fuel (elapsed + interval) (polls + 1)
      | .ok data =>
        match ibmClassify (getStr data "status") with
        | .succeeded => some (sucessoTriple data, polls + 1)
        | .failed => some (erroTriple data, polls + 1)
        | .running => aguardarLoop resp interval T fuel (elapsed + interval) (polls + 1)

/-- `aguardar_conclusao` with timeout budget `T` and poll interval
`interval`; fuel `T + 1` suffices whenever `interval ≥ 1`. -/
def aguardarConclusao (resp : Nat → PollResp) (interval T : Nat) :
    Option (RPATriple × Nat) :=
  aguardarLoop resp interval T (T + 1) 0 0

/-- A poll outcome that keeps the loop running: a network error, or a
status that maps to `running`. -/
def continuing : PollResp → Bool
  | .netError => true
  | .ok data =>
    match ibmClassify (getStr data "status") with
    | .running => true
    | _ => false

-- =========================================================================
-- Result extraction of `handle_executar_rpa` (lines 348–401)
-- =========================================================================

/-- The three extracted result fields.  `numero_autorizacao` and
`status_autorizacao` hold the raw Python value (`None` when absent);
`nr_guia_requisicao` is normalized to a string (`None` when absent). -/
structure Extracted where
  numero_autorizacao : PyVal
  status_autorizacao : PyVal
  nr_guia_requisicao : Option String

/-- Truthiness of the `nr_guia_requisicao` accumulator (a Python value
that is `None` or a string). -/
def optStrTruthy : Option String → Bool
  | some s => !(s == "")
  | none => false

def numeroAliases : List String := ["numero_autorizacao", "numeroAutorizacao", "nr_autorizacao"]
def statusAliases : List String := ["status_autorizacao", "statusAutorizacao"]
def guiaAliases : List String := ["nr_guia_requisicao", "nrGuiaRequisicao", "guia_requisicao"]

/-- One iteration of the `for var in variables` loop (lines 389–401):
the entry can fill a still-falsy field from its `name`/`value` keys; a
float guia value is converted via `str(int(v))`, `None` leaves the
field untouched. -/
def extractStep (var : PyVal) (acc : Extracted) : Extracted :=
  let var_name := var.getD "name" (.vstr "")
  let var_value := var.get "value"
  if isIn var_name numeroAliases && !acc.numero_autorizacao.truthy then
    { acc with numero_autorizacao := var_value }
  else if isIn var_name statusAliases && !acc.status_autorizacao.truthy then
    { acc with status_autorizacao := var_value }
  else if isIn var_name guiaAliases && !optStrTruthy acc.nr_guia_requisicao then
    match var_value with
    | .vfloat t => { acc with nr_guia_requisicao := some (toString t) }
    | .pynone => acc
    | v => { acc with nr_guia_requisicao := some v.pyStr }
  else acc

/-- The `for var in variables` loop (lines 388–401). -/
def extractVars : List PyVal → Extracted → Extracted
  | [], acc => acc
  | var :: rest, acc => extractVars rest (extractStep var acc)

/-- `nr_guia_raw` (lines 368–372): the Python `or`-chain over the three
aliases in the outputs dict. -/
def guiaRaw (outputs : PyVal) : PyVal :=
  pyOr (pyOr (outputs.get "nr_guia_requisicao") (outputs.get "nrGuiaRequisicao"))
    (outputs.get "guia_requisicao")

/-- Lines 373–378: `if nr_guia_raw is not None`, float values via
`str(int(...))`, others via `str(...)`. -/
def guiaNormalize : PyVal → Option String
  | .pynone => none
  | .vfloat t => some (toString t)
  | v => some v.pyStr

/-- The full extraction section (lines 348–401) applied to the third
component of the `aguardar_conclusao` return. -/
def extractResult (rpa_output : Option PyVal) : Extracted :=
  let init : Extracted := ⟨.pynone, .pynone, none⟩
  match rpa_output with
  | none => init
  | some ro =>
    match ro with
    | .vdict d =>
      if (PyVal.vdict d).truthy then
        let outputs := pyGetD d "outputs" (.vdict [])
        let varList := pyGetD d "variables" (.vlist [])
        let status_autorizacao :=
          pyOr (outputs.get "status_autorizacao") (outputs.get "statusAutorizacao")
        let nr_guia := guiaNormalize (guiaRaw outputs)
        let numero_autorizacao :=
          pyOr (pyOr (outputs.get "numero_autorizacao") (outputs.get "numeroAutorizacao"))
            (outputs.get "nr_autorizacao")
        let acc : Extracted := ⟨numero_autorizacao, status_autorizacao, nr_guia⟩
        match varList with
        | .vlist l => extractVars l acc
        | _ => acc
      else init
    | _ => init

/-- The package handed to extraction in a success path:
`{"outputs": outs, "variables": vl}` (shape produced by
`aguardar_conclusao` on `DONE`/`COMPLETED`). -/
def mkPayload (outs : List (String × PyVal)) (vl : List PyVal) : Option PyVal :=
  some (.vdict [("outputs", .vdict outs), ("variables", .vlist vl)])

-- =========================================================================
-- The RPA handler `handle_executar_rpa`
-- =========================================================================

/-- `TaskResult` outcomes a handler can report: `TaskResult.success(task,
vars)` or `TaskResult.failure(task, error_message, error_details,
retries, retry_timeout)`. -/
inductive TaskResult where
  | success (resultVars : List (String × PyVal))
  | failure (error_message error_details : String) (retries retry_timeout : Nat)

/-- Environment of one `handle_executar_rpa` invocation: the
configuration read from `IBMRPAConfig`, the behaviour of the remote IBM
RPA system (outcome of `iniciar_processo` and the stream of status-poll
responses), and the wall-clock reading used for `rpa_data_execucao`. -/
structure HandlerEnv where
  process_id : String
  timeout_seconds : Nat
  poll_interval_seconds : Nat
  start : Except String String
  poll : Nat → PollResp
  now : String

/-- `int(v) if v else 0` — the conversion pattern of the payload
builder (lines 321–327); raises when `v` is truthy but not numeric. -/
def pyIntIfTruthy (v : PyVal) : Except PyExc Int :=
  if v.truthy then v.pyInt else .ok 0

/-- The `rpa_payload` dict construction of lines 321–327, evaluated in
source order; the first failing conversion raises. -/
def buildRpaPayload (vars : List (String × PyVal)) : Except PyExc (List (String × PyVal)) := do
  let paciente_nome := pyGetD vars "paciente_nome" (.vstr "")
  let c ← pyIntIfTruthy (pyGetN vars "convenio_codigo")
  let p ← pyIntIfTruthy (pyGetN vars "procedimento_codigo")
  let m ← pyIntIfTruthy (pyGetN vars "medico_crm")
  let g ← pyIntIfTruthy (pyGetN vars "guia_solicitacao")
  pure [("paciente_nome", pyOr paciente_nome (.vstr "")),
        ("convenio_codigo", .vint c),
        ("procedimento_codigo", .vint p),
        ("medico_crm", .vint m),
        ("guia_solicitacao", .vint g)]

/-- Result variables of the `except Exception` branch (lines 427–438). -/
def errorResultVars (now msg : String) : List (String × PyVal) :=
  [("rpa_status", .vstr RPAStatus.ERRO.value),
   ("rpa_instance_id", .pynone),
   ("rpa_mensagem", .vstr ("Erro técnico: " ++ msg)),
   ("rpa_data_execucao", .vstr now),
   ("numero_autorizacao", .pynone),
   ("status_autorizacao", .pynone),
   ("nr_guia_requisicao", .pynone)]

def optStrPy : Option String → PyVal
  | some s => .vstr s
  | none => .pynone

/-- `handle_executar_rpa` (lines 264–438).  `some (.ok r)` means the
handler returned the `TaskResult` `r`; `some (.error e)` means the
exception `e` escaped the handler uncaught (only possible from the
payload-building code, which runs before the `try`); `none` means the
polling fuel ran out (a modelling artifact, excluded whenever
`poll_interval_seconds ≥ 1`). -/
def handle_executar_rpa (vars : List (String × PyVal)) (env : HandlerEnv) :
    Option (Except PyExc TaskResult) :=
  if env.process_id == "" then
    some (.ok (.failure "Processo IBM RPA não configurado"
      "A variável IBM_RPA_PROCESS_ID não está definida no .env" 0 5000))
  else
    match buildRpaPayload vars with
    | .error e => some (.error e)
    | .ok _payload =>
      match env.start with
      | .error msg => some (.ok (.success (errorResultVars env.now msg)))
      | .ok instance_id =>
        match aguardarConclusao env.poll env.poll_interval_seconds env.timeout_seconds with
        | none => none
        | some (triple, _) =>
          let ext := extractResult triple.output
          some (.ok (.success
            [("rpa_status", .vstr triple.status),
             ("rpa_instance_id", .vstr instance_id),
             ("rpa_mensagem", .vstr triple.mensagem),
             ("rpa_data_execucao", .vstr env.now),
             ("numero_autorizacao", ext.numero_autorizacao),
             ("status_autorizacao", ext.status_autorizacao),
             ("nr_guia_requisicao", optStrPy ext.nr_guia_requisicao)]))

-- =========================================================================
-- The Oracle handler `handle_atualizar_autorizacao` and its repository
-- =========================================================================

/-- Behaviour of the Oracle database during one handler invocation:
whether `oracledb.connect`, each procedure execution and a `rollback`
succeed, and the `str(e)` texts of the exceptions they raise. -/
structure OracleDB where
  connectOk : Bool
  guiaExecOk : Bool
  estagioExecOk : Bool
  rollbackOk : Bool
  connectMsg : String
  guiaMsg : String
  estagioMsg : String
  rollbackMsg : String

/-- State of `OracleAutorizacaoRepository`: whether `_connection` holds
an open connection (`true`) or is `None` (`false`). -/
structure RepoState where
  connection : Bool

def pyExcStr : PyExc → String
  | .valueError m => m
  | .typeError m => m
  | .runtimeError m => m

/-- `_get_connection` (lines 120–133): reuse the open connection or
connect; `.error` models a raised connect exception (state unchanged,
`_connection` still `None`). -/
def getConnection (db : OracleDB) (st : RepoState) : Except Unit RepoState :=
  if st.connection then .ok st
  else if db.connectOk then .ok ⟨true⟩
  else .error ()

/-- The `except Exception` branch shared by both procedures:
`if self._connection: self._connection.rollback()` (which may itself
raise and propagate), then return an ERRO dict. -/
def procExceptBranch {α : Type} (db : OracleDB) (st : RepoState) (erro : α) :
    Except PyExc α × RepoState :=
  if st.connection then
    if db.rollbackOk then (.ok erro, st)
    else (.error (.runtimeError db.rollbackMsg), st)
  else (.ok erro, st)

structure GuiaRes where
  procedure_guia_status : String
  procedure_guia_mensagem : String

/-- `atualizar_autorizacao_guia` (lines 135–201). -/
def atualizar_autorizacao_guia (db : OracleDB) (st : RepoState)
    (_nr_sequencia : Int) (_nr_guia_requisicao : String) :
    Except PyExc GuiaRes × RepoState :=
  match getConnection db st with
  | .error _ => procExceptBranch db st ⟨"ERRO", db.connectMsg⟩
  | .ok st' =>
    if db.guiaExecOk then
      (.ok ⟨"SUCESSO", "Dados da guia atualizados com sucesso"⟩, st')
    else procExceptBranch db st' ⟨"ERRO", db.guiaMsg⟩

structure EstagioRes where
  procedure_estagio_status : String
  procedure_estagio_mensagem : String
  nr_seq_estagio : Option Int

/-- `atualizar_estagio_autorizacao` (lines 203–273).  The handler passes
the raw task variable as `status_autorizacao`; a non-string value makes
`obter_estagio_por_status`'s `.strip()` raise inside the procedure's
`try`, which its `except` turns into an ERRO dict. -/
def atualizar_estagio_autorizacao (db : OracleDB) (st : RepoState)
    (_nr_sequencia : Int) (status_autorizacao : PyVal) :
    Except PyExc EstagioRes × RepoState :=
  match getConnection db st with
  | .error _ => procExceptBranch db st ⟨"ERRO", db.connectMsg, none⟩
  | .ok st' =>
    match status_autorizacao with
    | .vstr s =>
      if db.estagioExecOk then
        let nr_seq_estagio := obter_estagio_por_status s
        (.ok ⟨"SUCESSO", "Estágio atualizado para " ++ toString nr_seq_estagio,
              some nr_seq_estagio⟩, st')
      else procExceptBranch db st' ⟨"ERRO", db.estagioMsg, none⟩
    | v => procExceptBranch db st'
        ⟨"ERRO", "AttributeError: " ++ v.pyStr ++ " has no strip", none⟩

/-- `OracleAutorizacaoRepository.close` (lines 275–279): close the
connection if open and reset the field to `None`. -/
def closeRepo (st : RepoState) : RepoState :=
  if st.connection then ⟨false⟩ else st

def optIntPy : Option Int → PyVal
  | some n => .vint n
  | none => .pynone

def optIntStr : Option Int → String
  | some n => toString n
  | none => "None"

/-- The `try` body of `handle_atualizar_autorizacao` (lines 344–387):
run the two procedures conditionally and assemble `resultado_final`;
`.error` models an exception unwinding out of the body. -/
def oracleTryBody (db : OracleDB) (nseq : Int)
    (nr_guia_requisicao status_autorizacao : PyVal) :
    Except PyExc TaskResult × RepoState :=
  let st0 : RepoState := ⟨false⟩
  let step1 : Except PyExc (String × List String) × RepoState :=
    if nr_guia_requisicao.truthy then
      match atualizar_autorizacao_guia db st0 nseq nr_guia_requisicao.pyStr with
      | (.error e, st) => (.error e, st)
      | (.ok r, st) =>
        if r.procedure_guia_status == "ERRO" then
          (.ok ("ERRO", ["Guia: " ++ r.procedure_guia_mensagem]), st)
        else (.ok ("SUCESSO", ["Guia atualizada"]), st)
    else (.ok ("SUCESSO", ["Guia não informada (ignorado)"]), st0)
  match step1 with
  | (.error e, st) => (.error e, st)
  | (.ok (status1, msgs1), st) =>
    let step2 : Except PyExc (String × List String × Option Int) × RepoState :=
      if status_autorizacao.truthy then
        match atualizar_estagio_autorizacao db st nseq status_autorizacao with
        | (.error e, st') => (.error e, st')
        | (.ok r, st') =>
          if r.procedure_estagio_status == "ERRO" then
            (.ok ("ERRO", ["Estágio: " ++ r.procedure_estagio_mensagem], none), st')
          else
            (.ok (status1, ["Estágio: " ++ optIntStr r.nr_seq_estagio], r.nr_seq_estagio), st')
      else (.ok (status1, ["Status não informado (ignorado)"], none), st)
    match step2 with
    | (.error e, st') => (.error e, st')
    | (.ok (finalStatus, msgs2, estagio), st') =>
      (.ok (.success
        [("oracle_status", .vstr finalStatus),
         ("oracle_mensagem", .vstr (String.intercalate " | " (msgs1 ++ msgs2))),
         ("nr_seq_estagio", optIntPy estagio)]), st')

/-- The `except Exception` branch of the handler (lines 389–398):
convert an unwinding exception into a `Success` result with
`oracle_status = 'ERRO'` and `oracle_mensagem = str(e)`. -/
def oracleExceptWrap : Except PyExc TaskResult × RepoState → TaskResult × RepoState
  | (.ok r, st) => (r, st)
  | (.error e, st) =>
    (.success [("oracle_status", .vstr "ERRO"),
               ("oracle_mensagem", .vstr (pyExcStr e)),
               ("nr_seq_estagio", .pynone)], st)

/-- `handle_atualizar_autorizacao` (lines 285–401).  The returned
`RepoState` is the repository state after the `finally` clause; the
validation paths that return before the repository is constructed exit
with no connection ever opened. -/
def handle_atualizar_autorizacao (vars : List (String × PyVal)) (db : OracleDB) :
    TaskResult × RepoState :=
  let nr_sequencia := pyGetN vars "nr_sequencia"
  let nr_guia_requisicao := pyGetN vars "nr_guia_requisicao"
  let status_autorizacao := pyGetN vars "status_autorizacao"
  if !nr_sequencia.truthy then
    (.failure "nr_sequencia é obrigatório"
      "O parâmetro nr_sequencia deve ser informado ao iniciar o processo" 0 5000, ⟨false⟩)
  else
    match nr_sequencia.pyInt with
    | .error _ =>
      (.failure ("nr_sequencia inválido: " ++ nr_sequencia.pyStr)
        "O parâmetro nr_sequencia deve ser um número inteiro" 0 5000, ⟨false⟩)
    | .ok nseq =>
      let body := oracleExceptWrap (oracleTryBody db nseq nr_guia_requisicao status_autorizacao)
      (body.1, closeRepo body.2)

-- =========================================================================
-- Lemmas about the polling loop
-- =========================================================================

theorem aguardarLoop_timeout (resp : Nat → PollResp) (interval T fuel elapsed polls : Nat)
    (h : T ≤ elapsed) :
    aguardarLoop resp interval T (fuel + 1) elapsed polls = some (timeoutTriple T, polls) := by
  simp [aguardarLoop, h]

theorem aguardarLoop_skip (resp : Nat → PollResp) (interval T fuel elapsed polls : Nat)
    (he : elapsed < T) (hc : continuing (resp polls) = true) :
    aguardarLoop resp interval T (fuel + 1) elapsed polls
      = aguardarLoop resp interval T fuel (elapsed + interval) (polls + 1) := by
  simp only [aguardarLoop]
  rw [if_neg (by omega)]
  cases hr : resp polls with
  | netError => rfl
  | ok data =>
    simp only [continuing, hr] at hc
    split at hc
    all_goals simp_all

theorem aguardarLoop_success (resp : Nat → PollResp) (interval T fuel elapsed polls : Nat)
    (data : List (String × PyVal))
    (he : elapsed < T) (hr : resp polls = PollResp.ok data)
    (hs : ibmClassify (getStr data "status") = JobState.succeeded) :
    aguardarLoop resp interval T (fuel + 1) elapsed polls = some (sucessoTriple data, polls + 1) := by
  simp only [aguardarLoop]
  rw [if_neg (by omega), hr]
  simp only [hs]

theorem aguardarLoop_failed (resp : Nat → PollResp) (interval T fuel elapsed polls : Nat)
    (data : List (String × PyVal))
    (he : elapsed < T) (hr : resp polls = PollResp.ok data)
    (hs : ibmClassify (getStr data "status") = JobState.failed) :
    aguardarLoop resp interval T (fuel + 1) elapsed polls = some (erroTriple data, polls + 1) := by
  simp only [aguardarLoop]
  rw [if_neg (by omega), hr]
  simp only [hs]

theorem aguardarLoop_run_nonterminal (resp : Nat → PollResp) (interval T : Nat)
    (hc : ∀ k, continuing (resp k) = true) :
    ∀ fuel elapsed polls, T ≤ elapsed + fuel * interval →
      ∃ m, aguardarLoop resp interval T (fuel + 1) elapsed polls = some (timeoutTriple T, polls + m) ∧
        T ≤ elapsed + m * interval ∧ ∀ j < m, elapsed + j * interval < T := by
  intro fuel
  induction fuel with
  | zero =>
    intro elapsed polls h
    simp only [Nat.zero_mul, Nat.add_zero] at h
    exact ⟨0, aguardarLoop_timeout _ _ _ _ _ _ h, by simpa using h, by omega⟩
  | succ f ih =>
    intro elapsed polls h
    by_cases hT : T ≤ elapsed
    · exact ⟨0, aguardarLoop_timeout _ _ _ _ _ _ hT, by simpa using hT, by omega⟩
    · have he : elapsed < T := by omega
      rw [aguardarLoop_skip _ _ _ _ _ _ he (hc polls)]
      rw [Nat.succ_mul] at h
      obtain ⟨m, hm, hT', hj⟩ := ih (elapsed + interval) (polls + 1) (by omega)
      refine ⟨m + 1, ?_, ?_, ?_⟩
      · rw [show polls + (m + 1) = polls + 1 + m from by omega]
        exact hm
      · rw [Nat.succ_mul]; omega
      · intro j hj'
        cases j with
        | zero => simpa using he
        | succ j' =>
          have := hj j' (by omega)
          rw [Nat.succ_mul]
          omega

theorem aguardarLoop_timeout_status (resp : Nat → PollResp) (interval T : Nat) :
    ∀ fuel elapsed polls r n,
      aguardarLoop resp interval T fuel elapsed polls = some (r, n) →
      r.status = RPAStatus.TIMEOUT.value →
      polls ≤ n ∧ T ≤ elapsed + (n - polls) * interval := by
  intro fuel
  induction fuel with
  | zero => intro e p r n h _; simp [aguardarLoop] at h
  | succ f ih =>
    intro e p r n h hst
    simp only [aguardarLoop] at h
    split at h
    · rename_i hT
      cases h
      exact ⟨le_refl _, by simpa using hT⟩
    · rename_i hT
      split at h
      · obtain ⟨h1, h2⟩ := ih (e + interval) (p + 1) r n h hst
        refine ⟨by omega, ?_⟩
        rw [show n - p = (n - (p + 1)) + 1 from by omega, Nat.succ_mul]
        omega
      · rename_i data hresp
        split at h
        · cases h
          rw [show (sucessoTriple data).status = "SUCESSO" from rfl] at hst
          exact absurd hst (by decide)
        · cases h
          rw [show (erroTriple data).status = "ERRO" from rfl] at hst
          exact absurd hst (by decide)
        · obtain ⟨h1, h2⟩ := ih (e + interval) (p + 1) r n h hst
          refine ⟨by omega, ?_⟩
          rw [show n - p = (n - (p + 1)) + 1 from by omega, Nat.succ_mul]
          omega

theorem aguardarLoop_polls_within (resp : Nat → PollResp) (interval T : Nat) :
    ∀ fuel elapsed polls r n,
      aguardarLoop resp interval T fuel elapsed polls = some (r, n) →
      ∀ j, polls ≤ j → j < n → elapsed + (j - polls) * interval < T := by
  intro fuel
  induction fuel with
  | zero => intro e p r n h; simp [aguardarLoop] at h
  | succ f ih =>
    intro e p r n h j hpj hjn
    simp only [aguardarLoop] at h
    split at h
    · cases h; omega
    · rename_i hT
      have he : e < T := by omega
      split at h
      · rcases Nat.eq_or_lt_of_le hpj with rfl | hlt
        · simpa using he
        · have := ih (e + interval) (p + 1) r n h j (by omega) hjn
          rw [show j - p = (j - (p + 1)) + 1 from by omega, Nat.succ_mul]
          omega
      · rename_i data hresp
        split at h
        · cases h
          have : j = p := by omega
          subst this
          simpa using he
        · cases h
          have : j = p := by omega
          subst this
          simpa using he
        · rcases Nat.eq_or_lt_of_le hpj with rfl | hlt
          · simpa using he
          · have := ih (e + interval) (p + 1) r n h j (by omega) hjn
            rw [show j - p = (j - (p + 1)) + 1 from by omega, Nat.succ_mul]
            omega

theorem aguardarLoop_skipN (resp : Nat → PollResp) (interval T : Nat) :
    ∀ N fuel elapsed polls,
      (∀ k, k < N → continuing (resp (polls + k)) = true) →
      (∀ j, j < N → elapsed + j * interval < T) →
      aguardarLoop resp interval T (fuel + N) elapsed polls
        = aguardarLoop resp interval T fuel (elapsed + N * interval) (polls + N) := by
  intro N
  induction N with
  | zero => intro fuel e p _ _; simp
  | succ m ihm =>
    intro fuel e p hc hj
    have he : e < T := by simpa using hj 0 (by omega)
    have hc0 : continuing (resp p) = true := by simpa using hc 0 (by omega)
    rw [show fuel + (m + 1) = (fuel + m) + 1 from by omega,
        aguardarLoop_skip _ _ _ _ _ _ he hc0]
    rw [ihm fuel (e + interval) (p + 1)
        (fun k hk => by
          have := hc (k + 1) (by omega)
          rwa [show p + (k + 1) = p + 1 + k from by omega] at this)
        (fun j hjm => by
          have := hj (j + 1) (by omega)
          rw [Nat.succ_mul] at this
          omega)]
    rw [show e + interval + m * interval = e + (m + 1) * interval from by rw [Nat.succ_mul]; omega,
        show p + 1 + m = p + (m + 1) from by omega]

theorem aguardarLoop_status_mem (resp : Nat → PollResp) (interval T : Nat) :
    ∀ fuel elapsed polls r n,
      aguardarLoop resp interval T fuel elapsed polls = some (r, n) →
      r.status = RPAStatus.SUCESSO.value ∨ r.status = RPAStatus.ERRO.value ∨
        r.status = RPAStatus.TIMEOUT.value := by
  intro fuel
  induction fuel with
  | zero => intro e p r n h; simp [aguardarLoop] at h
  | succ f ih =>
    intro e p r n h
    simp only [aguardarLoop] at h
    split at h
    · cases h; exact Or.inr (Or.inr rfl)
    · split at h
      · exact ih _ _ _ _ h
      · rename_i data hresp
        split at h
        · cases h; exact Or.inl rfl
        · cases h; exact Or.inr (Or.inl rfl)
        · exact ih _ _ _ _ h

theorem aguardarLoop_total (resp : Nat → PollResp) (interval T : Nat) :
    ∀ fuel elapsed polls, T ≤ elapsed + fuel * interval →
      ∃ rn, aguardarLoop resp interval T (fuel + 1) elapsed polls = some rn := by
  intro fuel
  induction fuel with
  | zero =>
    intro e p h
    simp only [Nat.zero_mul, Nat.add_zero] at h
    exact ⟨_, aguardarLoop_timeout _ _ _ _ _ _ h⟩
  | succ f ih =>
    intro e p h
    by_cases hT : T ≤ e
    · exact ⟨_, aguardarLoop_timeout _ _ _ _ _ _ hT⟩
    · have he : e < T := by omega
      by_cases hcont : continuing (resp p) = true
      · rw [aguardarLoop_skip _ _ _ _ _ _ he hcont]
        rw [Nat.succ_mul] at h
        exact ih (e + interval) (p + 1) (by omega)
      · cases hr : resp p with
        | netError => exact absurd (by simp [continuing, hr]) hcont
        | ok data =>
          cases hcl : ibmClassify (getStr data "status") with
          | succeeded => exact ⟨_, aguardarLoop_success _ _ _ _ _ _ _ he hr hcl⟩
          | failed => exact ⟨_, aguardarLoop_failed _ _ _ _ _ _ _ he hr hcl⟩
          | running => exact absurd (by simp [continuing, hr, hcl]) hcont

theorem aguardarConclusao_total (resp : Nat → PollResp) (interval T : Nat)
    (hint : 1 ≤ interval) :
    ∃ rn, aguardarConclusao resp interval T = some rn := by
  unfold aguardarConclusao
  apply aguardarLoop_total
  have : T * 1 ≤ T * interval := Nat.mul_le_mul_left T hint
  omega

theorem aguardarConclusao_success_at (resp : Nat → PollResp) (interval T N : Nat)
    (data : List (String × PyVal))
    (hint : 1 ≤ interval)
    (hc : ∀ k, k < N → continuing (resp k) = true)
    (hT : N * interval < T)
    (hr : resp N = PollResp.ok data)
    (hs : ibmClassify (getStr data "status") = JobState.succeeded) :
    aguardarConclusao resp interval T = some (sucessoTriple data, N + 1) := by
  have hNT : N ≤ T := by
    have : N * 1 ≤ N * interval := Nat.mul_le_mul_left N hint
    omega
  unfold aguardarConclusao
  rw [show T + 1 = (T + 1 - N) + N from by omega]
  rw [aguardarLoop_skipN resp interval T N (T + 1 - N) 0 0
      (fun k hk => by simpa using hc k hk)
      (fun j hj => by
        have : j * interval ≤ N * interval := Nat.mul_le_mul_right interval (Nat.le_of_lt hj)
        omega)]
  rw [show T + 1 - N = (T - N) + 1 from by omega]
  have := aguardarLoop_success resp interval T (T - N) (0 + N * interval) (0 + N) data
      (by omega) (by simpa using hr) hs
  simpa using this

theorem aguardarConclusao_failed_at (resp : Nat → PollResp) (interval T N : Nat)
    (data : List (String × PyVal))
    (hint : 1 ≤ interval)
    (hc : ∀ k, k < N → continuing (resp k) = true)
    (hT : N * interval < T)
    (hr : resp N = PollResp.ok data)
    (hs : ibmClassify (getStr data "status") = JobState.failed) :
    aguardarConclusao resp interval T = some (erroTriple data, N + 1) := by
  have hNT : N ≤ T := by
    have : N * 1 ≤ N * interval := Nat.mul_le_mul_left N hint
    omega
  unfold aguardarConclusao
  rw [show T + 1 = (T + 1 - N) + N from by omega]
  rw [aguardarLoop_skipN resp interval T N (T + 1 - N) 0 0
      (fun k hk => by simpa using hc k hk)
      (fun j hj => by
        have : j * interval ≤ N * interval := Nat.mul_le_mul_right interval (Nat.le_of_lt hj)
        omega)]
  rw [show T + 1 - N = (T - N) + 1 from by omega]
  have := aguardarLoop_failed resp interval T (T - N) (0 + N * interval) (0 + N) data
      (by omega) (by simpa using hr) hs
  simpa using this

-- =========================================================================
-- Lemmas about result extraction
-- =========================================================================

/-- No entry of the variables list carries one of the given alias names. -/
def noAliasVarNames (vl : List PyVal) (aliases : List String) : Prop :=
  ∀ v ∈ vl, isIn (v.getD "name" (.vstr "")) aliases = false

theorem extractStep_guia (v : PyVal) (acc : Extracted)
    (h : isIn (v.getD "name" (.vstr "")) guiaAliases = false) :
    (extractStep v acc).nr_guia_requisicao = acc.nr_guia_requisicao := by
  simp only [extractStep]
  split
  · rfl
  · split
    · rfl
    · simp [h]

theorem extractStep_numero (v : PyVal) (acc : Extracted)
    (h : isIn (v.getD "name" (.vstr "")) numeroAliases = false) :
    (extractStep v acc).numero_autorizacao = acc.numero_autorizacao := by
  simp only [extractStep]
  rw [h]
  simp only [Bool.false_and, Bool.false_eq_true, if_false]
  split
  · rfl
  · split
    · split
      all_goals rfl
    · rfl

theorem extractStep_status (v : PyVal) (acc : Extracted)
    (h : isIn (v.getD "name" (.vstr "")) statusAliases = false) :
    (extractStep v acc).status_autorizacao = acc.status_autorizacao := by
  simp only [extractStep]
  split
  · rfl
  · rw [h]
    simp only [Bool.false_and, Bool.false_eq_true, if_false]
    split
    · split
      all_goals rfl
    · rfl

theorem extractVars_guia (vl : List PyVal) (h : noAliasVarNames vl guiaAliases) :
    ∀ acc, (extractVars vl acc).nr_guia_requisicao = acc.nr_guia_requisicao := by
  induction vl with
  | nil => intro acc; rfl
  | cons v rest ih =>
    intro acc
    rw [extractVars]
    rw [ih (fun w hw => h w (List.mem_cons_of_mem _ hw)) _]
    exact extractStep_guia v acc (h v (List.mem_cons_self _ _))

theorem extractVars_numero (vl : List PyVal) (h : noAliasVarNames vl numeroAliases) :
    ∀ acc, (extractVars vl acc).numero_autorizacao = acc.numero_autorizacao := by
  induction vl with
  | nil => intro acc; rfl
  | cons v rest ih =>
    intro acc
    rw [extractVars]
    rw [ih (fun w hw => h w (List.mem_cons_of_mem _ hw)) _]
    exact extractStep_numero v acc (h v (List.mem_cons_self _ _))

theorem extractVars_status (vl : List PyVal) (h : noAliasVarNames vl statusAliases) :
    ∀ acc, (extractVars vl acc).status_autorizacao = acc.status_autorizacao := by
  induction vl with
  | nil => intro acc; rfl
  | cons v rest ih =>
    intro acc
    rw [extractVars]
    rw [ih (fun w hw => h w (List.mem_cons_of_mem _ hw)) _]
    exact extractStep_status v acc (h v (List.mem_cons_self _ _))

theorem extractResult_guia_eq (outs : List (String × PyVal)) (vl : List PyVal)
    (h : noAliasVarNames vl guiaAliases) :
    (extractResult (mkPayload outs vl)).nr_guia_requisicao
      = guiaNormalize (guiaRaw (.vdict outs)) :=
  extractVars_guia vl h _

theorem extractResult_numero_eq (outs : List (String × PyVal)) (vl : List PyVal)
    (h : noAliasVarNames vl numeroAliases) :
    (extractResult (mkPayload outs vl)).numero_autorizacao
      = pyOr (pyOr ((PyVal.vdict outs).get "numero_autorizacao")
          ((PyVal.vdict outs).get "numeroAutorizacao"))
          ((PyVal.vdict outs).get "nr_autorizacao") :=
  extractVars_numero vl h _

theorem extractResult_status_eq (outs : List (String × PyVal)) (vl : List PyVal)
    (h : noAliasVarNames vl statusAliases) :
    (extractResult (mkPayload outs vl)).status_autorizacao
      = pyOr ((PyVal.vdict outs).get "status_autorizacao")
          ((PyVal.vdict outs).get "statusAutorizacao") :=
  extractVars_status vl h _

-- =========================================================================
-- Claim theorems: status mapping, polling, extraction
-- =========================================================================

/-- No key of the outputs dict is one of the given alias names. -/
def noAliasInOutputs (outs : List (String × PyVal)) (aliases : List String) : Prop :=
  ∀ k ∈ aliases, pyGet outs k = none

/-- The `aguardar_conclusao` run ended in the TIMEOUT triple with the
budget exhausted and every issued status poll made strictly inside it. -/
def timedOutWithin (resp : Nat → PollResp) (interval T : Nat) : Prop :=
  match aguardarConclusao resp interval T with
  | some (r, n) => r = timeoutTriple T ∧ T ≤ n * interval ∧ ∀ j < n, j * interval < T
  | none => False

/-- C2 (amended): the IBM RPA poller's status mapper is
case-insensitive — any two raw strings with the same uppercasing map
identically — and maps every table entry to its documented state
(success set → Succeeded, failure set → Failed) with every other string
defaulting to Running; the Oracle status→estágio mapper maps exactly the
case-specific entries of `STATUS_PARA_ESTAGIO` to their documented
estágio and every other (stripped) string, including other casings, to
the default 6 (Análise). -/
theorem c2_status_mapping_amended :
    (∀ s t : String, pyUpper s = pyUpper t → ibmClassify s = ibmClassify t) ∧
    (∀ s : String, ibmSuccessStatuses.contains (pyUpper s) = true →
        ibmClassify s = JobState.succeeded) ∧
    (∀ s : String, ibmFailureStatuses.contains (pyUpper s) = true →
        ibmClassify s = JobState.failed) ∧
    (∀ s : String, ibmSuccessStatuses.contains (pyUpper s) = false →
        ibmFailureStatuses.contains (pyUpper s) = false →
        ibmClassify s = JobState.running) ∧
    (obter_estagio_por_status "Autorizado" = 2 ∧ obter_estagio_por_status "AUTORIZADO" = 2 ∧
     obter_estagio_por_status "Aprovado" = 2 ∧ obter_estagio_por_status "APROVADO" = 2 ∧
     obter_estagio_por_status "Analise" = 6 ∧ obter_estagio_por_status "ANALISE" = 6 ∧
     obter_estagio_por_status "Auditoria" = 29 ∧ obter_estagio_por_status "AUDITORIA" = 29 ∧
     obter_estagio_por_status "Negado" = 7 ∧ obter_estagio_por_status "NEGADO" = 7 ∧
     obter_estagio_por_status "Recusado" = 7 ∧ obter_estagio_por_status "RECUSADO" = 7) ∧
    (∀ s : String, ¬ s = "" →
        STATUS_PARA_ESTAGIO.find? (fun p => p.1 == pyStrip s) = none →
        obter_estagio_por_status s = 6) := by
  refine ⟨?_, ?_, ?_, ?_, by decide, ?_⟩
  · intro s t h
    unfold ibmClassify
    rw [h]
  · intro s h
    have hm : pyUpper s ∈ ibmSuccessStatuses := by simpa using h
    simp [ibmClassify, hm]
  · intro s h
    have hmem : pyUpper s ∈ ibmFailureStatuses := by simpa using h
    have : pyUpper s = "FAILED" ∨ pyUpper s = "CANCELED" ∨ pyUpper s = "ERROR" := by
      simpa [ibmFailureStatuses] using hmem
    rcases this with h' | h' | h' <;> simp [ibmClassify, h', ibmSuccessStatuses, ibmFailureStatuses]
  · intro s h1 h2
    have hm1 : pyUpper s ∉ ibmSuccessStatuses := by simpa using h1
    have hm2 : pyUpper s ∉ ibmFailureStatuses := by simpa using h2
    simp [ibmClassify, hm1, hm2]
  · intro s hne hf
    have hb : (s == "") = false := by simpa using hne
    simp [obter_estagio_por_status, hb, hf]

/-- C2 counterexample: `obter_estagio_por_status` is not
case-insensitive — `"AUTORIZADO"` maps to 2 but `"autorizado"` (absent
from the table) falls back to the default 6, so two strings differing
only in letter case map to different internal values. -/
theorem c2_counterexample_case_sensitive_estagio :
    obter_estagio_por_status "AUTORIZADO" = 2 ∧ obter_estagio_por_status "autorizado" = 6 ∧
      (2 : Int) ≠ 6 := by decide

/-- C2 witness: the amended mapping theorem applied to the concrete
statuses `"Done"` and `"desconhecido"`. -/
theorem c2_status_mapping_amended_witness :
    ibmClassify "Done" = JobState.succeeded ∧ obter_estagio_por_status "desconhecido" = 6 :=
  ⟨c2_status_mapping_amended.2.1 "Done" (by decide),
   c2_status_mapping_amended.2.2.2.2.2 "desconhecido" (by decide) (by decide)⟩

/-- C3: with a positive poll interval and a remote status stream that
never reaches a terminal value, `aguardar_conclusao` terminates in the
TIMEOUT state at elapsed time ≥ the timeout budget, and every status
poll it issued happened strictly before the budget was exhausted (no
poll after the TimedOut transition); conversely, any run that returns
the TIMEOUT state polled until elapsed time ≥ the budget — TIMEOUT is
decided only by elapsed time, never by status mapping (the mapper's
codomain `JobState` has no timed-out constructor). -/
theorem c3_poller_times_out_only_by_budget :
    (∀ (resp : Nat → PollResp) (interval T : Nat),
        1 ≤ interval → (∀ k, continuing (resp k) = true) →
        timedOutWithin resp interval T) ∧
    (∀ (resp : Nat → PollResp) (interval T : Nat) (r : RPATriple) (n : Nat),
        aguardarConclusao resp interval T = some (r, n) →
        r.status = RPAStatus.TIMEOUT.value → T ≤ n * interval) := by
  constructor
  · intro resp interval T hint hc
    obtain ⟨m, hm, hT', hj⟩ := aguardarLoop_run_nonterminal resp interval T hc T 0 0 (by
      have : T * 1 ≤ T * interval := Nat.mul_le_mul_left T hint
      omega)
    unfold timedOutWithin aguardarConclusao
    rw [hm]
    exact ⟨rfl, by simpa using hT', fun j hj' => by simpa using hj j (by simpa using hj')⟩
  · intro resp interval T r n h hst
    unfold aguardarConclusao at h
    have := aguardarLoop_timeout_status resp interval T (T + 1) 0 0 r n h hst
    simpa using this

/-- C3 witness: the timeout theorem applied to a concrete stream that
always answers RUNNING, with interval 1 and budget 2. -/
theorem c3_poller_times_out_only_by_budget_witness :
    timedOutWithin (fun _ => PollResp.ok [("status", PyVal.vstr "RUNNING")]) 1 2 :=
  c3_poller_times_out_only_by_budget.1 _ 1 2 (by decide) (fun _ => rfl)

/-- C4: a network error during a single status poll does not abort
the polling loop — the loop continues with the same budget, elapsed time
advanced by exactly one poll interval — and no poll attempt, successful
or failed, extends the timeout budget: in every run, every issued poll
happens at an elapsed time (measured from the fixed loop start) strictly
below the budget. -/
theorem c4_poll_errors_do_not_abort_or_extend :
    (∀ (resp : Nat → PollResp) (interval T fuel elapsed polls : Nat),
        elapsed < T → resp polls = PollResp.netError →
        aguardarLoop resp interval T (fuel + 1) elapsed polls
          = aguardarLoop resp interval T fuel (elapsed + interval) (polls + 1)) ∧
    (∀ (resp : Nat → PollResp) (interval T : Nat) (r : RPATriple) (n : Nat),
        aguardarConclusao resp interval T = some (r, n) →
        ∀ j, j < n → j * interval < T) := by
  constructor
  · intro resp interval T fuel e p he hr
    exact aguardarLoop_skip resp interval T fuel e p he (by simp [continuing, hr])
  · intro resp interval T r n h j hj
    unfold aguardarConclusao at h
    have := aguardarLoop_polls_within resp interval T (T + 1) 0 0 r n h j (by omega) hj
    simpa using this

/-- C4 witness: the error-resilience theorem applied to a concrete
all-errors stream at elapsed 0. -/
theorem c4_poll_errors_do_not_abort_or_extend_witness :
    aguardarLoop (fun _ => PollResp.netError) 1 5 (3 + 1) 0 0
      = aguardarLoop (fun _ => PollResp.netError) 1 5 3 (0 + 1) (0 + 1) :=
  c4_poll_errors_do_not_abort_or_extend.1 _ 1 5 3 0 0 (by decide) rfl

/-- C8: if polls 0..N-1 keep the loop running and poll N (made while
elapsed time is still below the budget) returns a status mapping to
terminal success, `aguardar_conclusao` returns the SUCESSO triple having
issued exactly N+1 polls — no poll N+1 and no further sleep; a status
mapping to terminal failure likewise returns the ERRO triple, whose
message embeds the remote error message, after exactly N+1 polls. -/
theorem c8_terminal_status_stops_polling :
    (∀ (resp : Nat → PollResp) (interval T N : Nat) (data : List (String × PyVal)),
        1 ≤ interval → (∀ k, k < N → continuing (resp k) = true) →
        N * interval < T → resp N = PollResp.ok data →
        ibmClassify (getStr data "status") = JobState.succeeded →
        aguardarConclusao resp interval T = some (sucessoTriple data, N + 1)) ∧
    (∀ (resp : Nat → PollResp) (interval T N : Nat) (data : List (String × PyVal)),
        1 ≤ interval → (∀ k, k < N → continuing (resp k) = true) →
        N * interval < T → resp N = PollResp.ok data →
        ibmClassify (getStr data "status") = JobState.failed →
        aguardarConclusao resp interval T = some (erroTriple data, N + 1)) :=
  ⟨fun resp interval T N data hint hc hT hr hs =>
      aguardarConclusao_success_at resp interval T N data hint hc hT hr hs,
   fun resp interval T N data hint hc hT hr hs =>
      aguardarConclusao_failed_at resp interval T N data hint hc hT hr hs⟩

/-- C8 witness: the termination theorem applied to a concrete stream
answering RUNNING then DONE. -/
theorem c8_terminal_status_stops_polling_witness :
    aguardarConclusao
        (fun k => if k = 0 then PollResp.ok [("status", PyVal.vstr "RUNNING")]
                  else PollResp.ok [("status", PyVal.vstr "DONE")]) 1 5
      = some (sucessoTriple [("status", PyVal.vstr "DONE")], 1 + 1) :=
  c8_terminal_status_stops_polling.1 _ 1 5 1 _ (by decide)
    (fun k hk => by
      have hk0 : k = 0 := by omega
      subst hk0
      rfl)
    (by decide) rfl rfl

/-- C5 counterexample: with both `nr_guia_requisicao` (value `0`) and
`nrGuiaRequisicao` (value `95687.0`) present, the extractor returns
`"95687"` from the second alias, not `"0"` from the first — the first
alias does not win regardless of value, because the Python `or`-chain
skips falsy values. -/
theorem c5_counterexample_falsy_alias_skipped :
    (extractResult (mkPayload
        [("nr_guia_requisicao", PyVal.vint 0), ("nrGuiaRequisicao", PyVal.vfloat 95687)]
        [])).nr_guia_requisicao = some "95687" ∧ ("95687" : String) ≠ "0" :=
  ⟨rfl, by decide⟩

/-- C5 (amended): the extractor returns the value of the first alias
in preference order whose value is truthy; an earlier alias holding a
falsy value (None, empty string, numeric zero) is skipped in favour of
later aliases, and when the first two are falsy the chain yields the
third lookup's value; the extracted field is that selection,
float-normalized. -/
theorem c5_first_truthy_alias_wins :
    (∀ o : PyVal, (o.get "nr_guia_requisicao").truthy = true →
        guiaRaw o = o.get "nr_guia_requisicao") ∧
    (∀ o : PyVal, (o.get "nr_guia_requisicao").truthy = false →
        (o.get "nrGuiaRequisicao").truthy = true →
        guiaRaw o = o.get "nrGuiaRequisicao") ∧
    (∀ o : PyVal, (o.get "nr_guia_requisicao").truthy = false →
        (o.get "nrGuiaRequisicao").truthy = false →
        guiaRaw o = o.get "guia_requisicao") ∧
    (∀ (outs : List (String × PyVal)) (vl : List PyVal), noAliasVarNames vl guiaAliases →
        (extractResult (mkPayload outs vl)).nr_guia_requisicao
          = guiaNormalize (guiaRaw (.vdict outs))) := by
  refine ⟨?_, ?_, ?_, fun outs vl h => extractResult_guia_eq outs vl h⟩
  · intro o h
    simp [guiaRaw, pyOr, h]
  · intro o h1 h2
    simp [guiaRaw, pyOr, h1, h2]
  · intro o h1 h2
    simp [guiaRaw, pyOr, h1, h2]

/-- C5 witness: the amended alias theorem applied to a payload whose
first alias holds the truthy string "123". -/
theorem c5_first_truthy_alias_wins_witness :
    guiaRaw (PyVal.vdict [("nr_guia_requisicao", PyVal.vstr "123")])
      = (PyVal.vdict [("nr_guia_requisicao", PyVal.vstr "123")]).get "nr_guia_requisicao" :=
  c5_first_truthy_alias_wins.1 _ rfl

/-- C6 counterexample: for the payload `{nrGuiaRequisicao: 0.0}` (a
floating-point value, no `nr_guia_requisicao` key) the extractor
produces the absent value, not the integer string `"0"`, because `0.0`
is falsy and is dropped by the `or`-chain. -/
theorem c6_counterexample_zero_float_guia :
    (extractResult (mkPayload [("nrGuiaRequisicao", PyVal.vfloat 0)] [])).nr_guia_requisicao
      = none ∧ (none : Option String) ≠ some "0" :=
  ⟨rfl, by decide⟩

/-- C6 (amended): for every terminal payload whose guide number is
present only under the alias `nrGuiaRequisicao` with a nonzero
integral floating-point value (e.g. `95687.0`), the extractor produces
the integer string form (e.g. `"95687"`), with no decimal point. -/
theorem c6_nonzero_float_normalized (outs : List (String × PyVal)) (vl : List PyVal) (t : Int)
    (h1 : pyGet outs "nr_guia_requisicao" = none)
    (h2 : pyGet outs "nrGuiaRequisicao" = some (PyVal.vfloat t))
    (h3 : ¬ t = 0)
    (h4 : noAliasVarNames vl guiaAliases) :
    (extractResult (mkPayload outs vl)).nr_guia_requisicao = some (toString t) := by
  rw [extractResult_guia_eq outs vl h4]
  have e1 : (PyVal.vdict outs).get "nr_guia_requisicao" = PyVal.pynone := by
    simp [PyVal.get, pyGetN, h1]
  have e2 : (PyVal.vdict outs).get "nrGuiaRequisicao" = PyVal.vfloat t := by
    simp [PyVal.get, pyGetN, h2]
  unfold guiaRaw
  rw [e1, e2]
  rw [show pyOr PyVal.pynone (PyVal.vfloat t) = PyVal.vfloat t from rfl]
  rw [show pyOr (PyVal.vfloat t) ((PyVal.vdict outs).get "guia_requisicao") = PyVal.vfloat t from by
    simp [pyOr, PyVal.truthy, h3]]
  rfl

/-- C6 witness: the normalization theorem applied to the payload
`{nrGuiaRequisicao: 95687.0}` of the spec's example. -/
theorem c6_nonzero_float_normalized_witness :
    (extractResult (mkPayload [("nrGuiaRequisicao", PyVal.vfloat 95687)] [])).nr_guia_requisicao
      = some "95687" :=
  c6_nonzero_float_normalized [("nrGuiaRequisicao", PyVal.vfloat 95687)] [] 95687 rfl rfl
    (by decide) (fun v hv => absurd hv (List.not_mem_nil v))

/-- C7: for every terminal payload containing none of the known
aliases of a result field — in neither the outputs map nor the
variables list — extraction yields the explicit absent value (`None`)
for that field, which is distinct from the empty string; the extractor
is a total function, so no exception is raised. -/
theorem c7_missing_aliases_yield_none (outs : List (String × PyVal)) (vl : List PyVal) :
    (noAliasInOutputs outs numeroAliases → noAliasVarNames vl numeroAliases →
      (extractResult (mkPayload outs vl)).numero_autorizacao = PyVal.pynone) ∧
    (noAliasInOutputs outs statusAliases → noAliasVarNames vl statusAliases →
      (extractResult (mkPayload outs vl)).status_autorizacao = PyVal.pynone) ∧
    (noAliasInOutputs outs guiaAliases → noAliasVarNames vl guiaAliases →
      (extractResult (mkPayload outs vl)).nr_guia_requisicao = none) ∧
    PyVal.pynone ≠ PyVal.vstr "" ∧ (none : Option String) ≠ some "" := by
  refine ⟨?_, ?_, ?_, fun h => PyVal.noConfusion h, by decide⟩
  · intro ho hv
    rw [extractResult_numero_eq outs vl hv]
    have e1 : (PyVal.vdict outs).get "numero_autorizacao" = PyVal.pynone := by
      simp [PyVal.get, pyGetN, ho "numero_autorizacao" (by simp [numeroAliases])]
    have e2 : (PyVal.vdict outs).get "numeroAutorizacao" = PyVal.pynone := by
      simp [PyVal.get, pyGetN, ho "numeroAutorizacao" (by simp [numeroAliases])]
    have e3 : (PyVal.vdict outs).get "nr_autorizacao" = PyVal.pynone := by
      simp [PyVal.get, pyGetN, ho "nr_autorizacao" (by simp [numeroAliases])]
    rw [e1, e2, e3]
    rfl
  · intro ho hv
    rw [extractResult_status_eq outs vl hv]
    have e1 : (PyVal.vdict outs).get "status_autorizacao" = PyVal.pynone := by
      simp [PyVal.get, pyGetN, ho "status_autorizacao" (by simp [statusAliases])]
    have e2 : (PyVal.vdict outs).get "statusAutorizacao" = PyVal.pynone := by
      simp [PyVal.get, pyGetN, ho "statusAutorizacao" (by simp [statusAliases])]
    rw [e1, e2]
    rfl
  · intro ho hv
    rw [extractResult_guia_eq outs vl hv]
    have e1 : (PyVal.vdict outs).get "nr_guia_requisicao" = PyVal.pynone := by
      simp [PyVal.get, pyGetN, ho "nr_guia_requisicao" (by simp [guiaAliases])]
    have e2 : (PyVal.vdict outs).get "nrGuiaRequisicao" = PyVal.pynone := by
      simp [PyVal.get, pyGetN, ho "nrGuiaRequisicao" (by simp [guiaAliases])]
    have e3 : (PyVal.vdict outs).get "guia_requisicao" = PyVal.pynone := by
      simp [PyVal.get, pyGetN, ho "guia_requisicao" (by simp [guiaAliases])]
    unfold guiaRaw
    rw [e1, e2, e3]
    rfl

/-- C7 witness: the absent-field theorem applied to a payload whose
outputs hold only an unrelated key. -/
theorem c7_missing_aliases_yield_none_witness :
    (extractResult (mkPayload [("other", PyVal.vstr "x")] [])).numero_autorizacao
        = PyVal.pynone ∧
    (extractResult (mkPayload [("other", PyVal.vstr "x")] [])).nr_guia_requisicao = none :=
  ⟨(c7_missing_aliases_yield_none _ _).1
      (fun k hk => by fin_cases hk <;> rfl)
      (fun v hv => absurd hv (List.not_mem_nil v)),
   (c7_missing_aliases_yield_none _ _).2.2.1
      (fun k hk => by fin_cases hk <;> rfl)
      (fun v hv => absurd hv (List.not_mem_nil v))⟩

-- =========================================================================
-- Claim theorems: handlers and resource release
-- =========================================================================

/-- The handler run produced exactly one `TaskResult`, it is a
`Success`, and its `rpa_status` variable is one of the three structured
terminal markers. -/
def isSuccessWithRpaStatus : Option (Except PyExc TaskResult) → Prop
  | some (.ok (.success rv)) =>
    ∃ s, pyGet rv "rpa_status" = some (.vstr s) ∧
      (s = RPAStatus.SUCESSO.value ∨ s = RPAStatus.ERRO.value ∨ s = RPAStatus.TIMEOUT.value)
  | _ => False

/-- C1 (code bug): `handle_executar_rpa` does not return a
`TaskResult` on every path — with `IBM_RPA_PROCESS_ID` configured and
the task variable `convenio_codigo = "abc"`, the payload-building code
(which runs before the `try`) raises `int("abc")`'s ValueError, and the
exception escapes the handler uncaught. -/
theorem c1_uncaught_conversion_error :
    handle_executar_rpa [("convenio_codigo", PyVal.vstr "abc")]
      ⟨"p1", 300, 10, Except.ok "iid", fun _ => PollResp.netError, "2024-01-01T00:00:00"⟩
      = some (.error (.valueError "invalid literal for int() with base 10: abc")) := rfl

/-- C9: whenever the remote job was started (configuration present,
payload built, start call returned an instance id), the RPA handler
reports the task as a `Success` whose `rpa_status` variable is one of
SUCESSO, ERRO or TIMEOUT — never a `BusinessFailure` or zero-retry
incident; conversely the only path producing a `TaskResult.failure` is
the pre-start misconfiguration check (empty process id), and it carries
zero retries. -/
theorem c9_terminal_outcomes_reported_as_success :
    (∀ (vars : List (String × PyVal)) (env : HandlerEnv),
        ¬ env.process_id = "" → 1 ≤ env.poll_interval_seconds →
        (∃ p, buildRpaPayload vars = .ok p) →
        (∃ iid, env.start = .ok iid) →
        isSuccessWithRpaStatus (handle_executar_rpa vars env)) ∧
    (∀ (vars : List (String × PyVal)) (env : HandlerEnv) (em ed : String) (r rt : Nat),
        handle_executar_rpa vars env = some (.ok (.failure em ed r rt)) →
        env.process_id = "" ∧ r = 0) := by
  constructor
  · intro vars env hpid hint hp hst
    obtain ⟨p, hp⟩ := hp
    obtain ⟨iid, hst⟩ := hst
    unfold handle_executar_rpa
    rw [if_neg (by simpa using hpid)]
    rw [hp, hst]
    obtain ⟨⟨triple, n⟩, hA⟩ :=
      aguardarConclusao_total env.poll env.poll_interval_seconds env.timeout_seconds hint
    rw [hA]
    have hmem := aguardarLoop_status_mem env.poll env.poll_interval_seconds env.timeout_seconds
      (env.timeout_seconds + 1) 0 0 triple n hA
    exact ⟨triple.status, rfl, hmem⟩
  · intro vars env em ed r rt h
    unfold handle_executar_rpa at h
    by_cases hpid : (env.process_id == "") = true
    · rw [if_pos hpid] at h
      cases h
      exact ⟨by simpa using hpid, rfl⟩
    · rw [if_neg hpid] at h
      cases hb : buildRpaPayload vars with
      | error e => rw [hb] at h; cases h
      | ok p =>
        rw [hb] at h
        cases hs : env.start with
        | error msg => rw [hs] at h; cases h
        | ok iid =>
          rw [hs] at h
          cases hA : aguardarConclusao env.poll env.poll_interval_seconds env.timeout_seconds with
          | none => rw [hA] at h; cases h
          | some rn =>
            obtain ⟨triple, n⟩ := rn
            rw [hA] at h
            cases h

/-- C9 witness: the reporting theorem applied to a configured
environment whose remote job succeeds on the first poll. -/
theorem c9_terminal_outcomes_reported_as_success_witness :
    isSuccessWithRpaStatus (handle_executar_rpa []
      ⟨"p1", 1, 1, Except.ok "iid",
       fun _ => PollResp.ok [("status", PyVal.vstr "DONE")], "2024-01-01T00:00:00"⟩) :=
  c9_terminal_outcomes_reported_as_success.1 [] _ (by decide) (by decide)
    ⟨_, rfl⟩ ⟨_, rfl⟩

theorem closeRepo_closed : ∀ st, (closeRepo st).connection = false
  | ⟨true⟩ => rfl
  | ⟨false⟩ => rfl

/-- C10: for every task-variable assignment and every database
behaviour — connect failures, procedure failures, and rollback failures
that unwind an exception through the handler body — the Oracle
authorization handler exits with the repository's database connection
closed and its connection field reset (the `finally` clause runs
`repository.close()` on the success path, the error-result path and the
exception path alike; validation paths exit before any connection is
opened). -/
theorem c10_connection_released_on_every_exit (vars : List (String × PyVal)) (db : OracleDB) :
    (handle_atualizar_autorizacao vars db).2.connection = false := by
  unfold handle_atualizar_autorizacao
  dsimp only
  split
  · rfl
  · split
    · rfl
    · exact closeRepo_closed _

end CamundaWorkers
